import Mathlib

/-!
Verification of the build-and-transfer pipeline script (build-tail.py).

The script is a linear orchestration: parse a build-variant flag, check a
project marker file, run clean / dependency-fetch / build commands, locate
the produced APK, rename it with a timestamp, and send it to a fixed device
over Tailscale.  We embed it shallowly: external effects (filesystem
queries, subprocess exit codes, the wall clock) are abstracted into a
`World` record, and the top-level driver `mainRun` produces the list of
external side-effect events it performs together with its outcome.
-/

/-- Result of running an external command: exit status and captured output
(`subprocess.run` with `capture_output=True, text=True`). -/
structure CmdResult where
  exitCode : Nat
  stdout : String
  stderr : String
deriving DecidableEq

/-- A wall-clock reading at one-second granularity, the data consumed by
`datetime.datetime.now().strftime("%Y%m%d_%H%M%S")`. -/
structure DateTime where
  year : Nat
  month : Nat
  day : Nat
  hour : Nat
  minute : Nat
  second : Nat
deriving DecidableEq

/-- Field ranges of a real clock reading (year limited to four digits, as
assumed by the four-digit `%Y` rendering). -/
def DateTime.valid (t : DateTime) : Prop :=
  t.year ≤ 9999 ∧ 1 ≤ t.month ∧ t.month ≤ 12 ∧ 1 ≤ t.day ∧ t.day ≤ 31 ∧
  t.hour ≤ 23 ∧ t.minute ≤ 59 ∧ t.second ≤ 59

instance (t : DateTime) : Decidable t.valid := by
  unfold DateTime.valid
  infer_instance

/-- The environment the script runs in: which paths exist, what each glob
pattern matches (in the order `glob.glob` returns), what exit status and
output each external command produces, and the current clock reading. -/
structure World where
  fileExists : String → Bool
  glob : String → List String
  runResult : List String → CmdResult
  now : DateTime

/-- External side effects performed by the pipeline, in order.  `discover`
instruments the call to `find_apk_file` (which itself only reads the
filesystem); `moveFile` is the `shutil.move` performed by the rename
stage; `runCmd` records one subprocess invocation together with the exit
status the world assigned it. -/
inductive Event where
  | runCmd (cmd : List String) (exitCode : Nat)
  | discover (buildType : String)
  | moveFile (src dst : String)
deriving DecidableEq

/-- How the process ends: `exited code` models `sys.exit(code)` (or the
argparse usage-error exit), `success` a run that falls off the end of
`main`. -/
inductive Outcome where
  | exited (code : Nat)
  | success
deriving DecidableEq

/-- Lines printed by `run_command`, kept structurally (content, not
formatting): the two header lines, the stdout echo on success, and the
three-part diagnostic on failure. -/
inductive OutLine where
  | header (description : String)
  | running (cmdLine : String)
  | stdoutLine (s : String)
  | errorDiag (description : String) (exitCode : Nat)
  | errStdout (s : String)
  | errStderr (s : String)
deriving DecidableEq

/-- `run_command(cmd, description)`: run the command; on exit status zero
print captured stdout (when non-empty) and return the result; on non-zero
status print the diagnostic (description, then captured stdout and stderr
when non-empty) and terminate the process with exit code 1. -/
def run_command (w : World) (cmd : List String) (description : String) :
    List OutLine × Except Nat CmdResult :=
  let r := w.runResult cmd
  let pre := [OutLine.header description, OutLine.running (String.intercalate " " cmd)]
  if r.exitCode = 0 then
    (pre ++ (if r.stdout = "" then [] else [OutLine.stdoutLine r.stdout]), Except.ok r)
  else
    (pre ++ [OutLine.errorDiag description r.exitCode]
         ++ (if r.stdout = "" then [] else [OutLine.errStdout r.stdout])
         ++ (if r.stderr = "" then [] else [OutLine.errStderr r.stderr]),
     Except.error 1)

/-- Index of the last occurrence of `c` in `l`, if any (Python `rfind`). -/
def rfindPos : List Char → Char → Option Nat
  | [], _ => none
  | a :: as, c =>
    match rfindPos as c with
    | some i => some (i + 1)
    | none => if a = c then some 0 else none

/-- `pathlib.Path(p).name`: the component after the last slash. -/
def pathName (p : String) : String :=
  match rfindPos p.data '/' with
  | some i => String.mk (p.data.drop (i + 1))
  | none => p

/-- `str(pathlib.Path(p).parent)` for the normalized relative or absolute
paths this script manipulates: "." when there is no slash, "/" when the
only slash is leading, otherwise everything before the last slash. -/
def pathParentStr (p : String) : String :=
  match rfindPos p.data '/' with
  | none => "."
  | some i => if i = 0 then "/" else String.mk (p.data.take i)

/-- `(Path(p).stem, Path(p).suffix)` computed on a file name: split at the
last dot when that dot is neither the first nor the last character,
otherwise the whole name with an empty suffix. -/
def nameSuffixSplit (name : String) : String × String :=
  match rfindPos name.data '.' with
  | some i =>
    if 0 < i ∧ i < name.data.length - 1 then
      (String.mk (name.data.take i), String.mk (name.data.drop i))
    else (name, "")
  | none => (name, "")

/-- `str(directory / filename)` for a parent produced by `pathParentStr`. -/
def pathJoin (dir name : String) : String :=
  if dir = "." then name
  else if dir = "/" then "/" ++ name
  else dir ++ "/" ++ name

/-- Two-digit zero-padded decimal rendering (strftime `%m`, `%d`, `%H`,
`%M`, `%S`), as a character list. -/
def pad2 (n : Nat) : List Char :=
  [Nat.digitChar (n / 10 % 10), Nat.digitChar (n % 10)]

/-- Four-digit zero-padded decimal rendering (strftime `%Y` for years up
to 9999), as a character list. -/
def pad4 (n : Nat) : List Char :=
  [Nat.digitChar (n / 1000 % 10), Nat.digitChar (n / 100 % 10),
   Nat.digitChar (n / 10 % 10), Nat.digitChar (n % 10)]

/-- `t.strftime("%Y%m%d_%H%M%S")`. -/
def strftimeTimestamp (t : DateTime) : String :=
  String.mk (pad4 t.year ++ pad2 t.month ++ pad2 t.day ++ ['_'] ++
             pad2 t.hour ++ pad2 t.minute ++ pad2 t.second)

/-- First pattern in the list whose glob yields at least one match, taking
the first match (`files[0]`); `none` when every glob is empty. -/
def globFirst (w : World) : List String → Option String
  | [] => none
  | p :: ps =>
    match w.glob p with
    | [] => globFirst w ps
    | f :: _ => some f

/-- `find_apk_file(build_type)`: check the exact expected output path for
the variant, then fall back to the two variant-tagged glob patterns in
order. -/
def find_apk_file (w : World) (build_type : String) : Option String :=
  let pattern := if build_type = "debug"
    then "build/app/outputs/flutter-apk/app-debug.apk"
    else "build/app/outputs/flutter-apk/app-release.apk"
  if w.fileExists pattern then some pattern
  else
    globFirst w
      ["build/app/outputs/flutter-apk/*" ++ build_type ++ "*.apk",
       "build/app/outputs/apk/" ++ build_type ++ "/*.apk"]

/-- `rename_apk_with_version(apk_path, build_type)`: insert the current
timestamp between the stem and the suffix of the file name, keeping the
parent directory; returns the new path (the move itself is recorded as a
`moveFile` event by the driver).  The `build_type` parameter is accepted
but, as in the source, never used. -/
def rename_apk_with_version (apk_path : String) (build_type : String)
    (now : DateTime) : String :=
  let timestamp := strftimeTimestamp now
  let directory := pathParentStr apk_path
  let split := nameSuffixSplit (pathName apk_path)
  let new_filename := split.1 ++ "_" ++ timestamp ++ split.2
  pathJoin directory new_filename

/-- The configured target Tailscale device name. -/
def TARGET_DEVICE_NAME : String := "asus"

/-- The argument vector of the `flutter clean` invocation. -/
def cleanCmd : List String := ["flutter", "clean"]

/-- The argument vector of the `flutter pub get` invocation. -/
def pubGetCmd : List String := ["flutter", "pub", "get"]

/-- The build command for the selected variant: `--debug` when the variant
string is "debug", otherwise `--release`, always restricted to the
`android-arm64` target platform. -/
def buildCmd (build_type : String) : List String :=
  if build_type = "debug" then
    ["flutter", "build", "apk", "--debug", "--target-platform", "android-arm64"]
  else
    ["flutter", "build", "apk", "--release", "--target-platform", "android-arm64"]

/-- The `tailscale file cp` argument vector: source path, then the device
name suffixed with a colon (the peer's default inbound-file location). -/
def tsCmd (apk_path device_name : String) : List String :=
  ["tailscale", "file", "cp", apk_path, device_name ++ ":"]

/-- `send_apk_via_tailscale(apk_path, device_name)`: route the
`tailscale file cp` invocation through `run_command`. -/
def send_apk_via_tailscale (w : World) (apk_path device_name : String) :
    List OutLine × Except Nat CmdResult :=
  run_command w (tsCmd apk_path device_name)
    ("Sending " ++ pathName apk_path ++ " to " ++ device_name ++ " via Tailscale")

/-- The event recorded for one `run_command` invocation. -/
def runEvent (w : World) (cmd : List String) : Event :=
  Event.runCmd cmd (w.runResult cmd).exitCode

/-- `main()`, driven by the two boolean flags `--debug` / `--release`:
argparse usage error (exit 2) when both or neither is given; then the
`pubspec.yaml` precondition check; then clean, dependency fetch and build
through `run_command` (any non-zero exit status stops the run with exit 1);
then artifact discovery, exit 1 when it yields nothing; then the timestamp
rename and the Tailscale transfer.  Returns the external side-effect trace
and the outcome. -/
def mainRun (w : World) (debugFlag releaseFlag : Bool) : List Event × Outcome :=
  if (debugFlag && releaseFlag) || (!debugFlag && !releaseFlag) then
    ([], Outcome.exited 2)
  else
    let build_type := if debugFlag then "debug" else "release"
    if w.fileExists "pubspec.yaml" = false then
      ([], Outcome.exited 1)
    else
      let e1 := runEvent w cleanCmd
      if (w.runResult cleanCmd).exitCode ≠ 0 then ([e1], Outcome.exited 1)
      else
        let e2 := runEvent w pubGetCmd
        if (w.runResult pubGetCmd).exitCode ≠ 0 then ([e1, e2], Outcome.exited 1)
        else
          let bc := buildCmd build_type
          let e3 := runEvent w bc
          if (w.runResult bc).exitCode ≠ 0 then ([e1, e2, e3], Outcome.exited 1)
          else
            let e4 := Event.discover build_type
            match find_apk_file w build_type with
            | none => ([e1, e2, e3, e4], Outcome.exited 1)
            | some apk_path =>
              let versioned := rename_apk_with_version apk_path build_type w.now
              let e5 := Event.moveFile apk_path versioned
              let ts := tsCmd versioned TARGET_DEVICE_NAME
              let e6 := runEvent w ts
              if (w.runResult ts).exitCode ≠ 0 then
                ([e1, e2, e3, e4, e5, e6], Outcome.exited 1)
              else
                ([e1, e2, e3, e4, e5, e6], Outcome.success)

/-- Whether an event is a `flutter build` subprocess invocation. -/
def isBuildInvocation : Event → Bool
  | Event.runCmd cmd _ => cmd.take 3 == ["flutter", "build", "apk"]
  | _ => false

/-- Whether an event is the artifact-discovery instrumentation point. -/
def isDiscover : Event → Bool
  | Event.discover _ => true
  | _ => false

/-- Whether an event is a filesystem move. -/
def isMove : Event → Bool
  | Event.moveFile _ _ => true
  | _ => false

/-- Whether an event is a `tailscale` subprocess invocation. -/
def isTransfer : Event → Bool
  | Event.runCmd cmd _ => cmd.take 1 == ["tailscale"]
  | _ => false

/-- One entry of the spec's ordered candidate list for artifact
discovery: either an exact expected path or a glob pattern. -/
inductive Candidate where
  | exact (path : String)
  | glob (pattern : String)
deriving DecidableEq

/-- Whether a candidate "exists" and which path it denotes: an exact
candidate exists when the file does, a glob candidate when it matches at
least one file (its first match is taken). -/
def candResult (w : World) : Candidate -> Option String
  | Candidate.exact path => if w.fileExists path then some path else none
  | Candidate.glob pattern => (w.glob pattern).head?

/-- Spec-side discovery policy: first-match-wins over the ordered
candidate list, `none` when no candidate exists. -/
def firstExistingCandidate (w : World) : List Candidate -> Option String
  | [] => none
  | c :: cs =>
    match candResult w c with
    | some p => some p
    | none => firstExistingCandidate w cs

/-- The fixed ordered candidate list for a variant: the exact expected
per-variant path first, then the two variant-tagged glob patterns. -/
def candidates (bt : String) : List Candidate :=
  [Candidate.exact ("build/app/outputs/flutter-apk/app-" ++ bt ++ ".apk"),
   Candidate.glob ("build/app/outputs/flutter-apk/*" ++ bt ++ "*.apk"),
   Candidate.glob ("build/app/outputs/apk/" ++ bt ++ "/*.apk")]

/-- Example world in which every file exists, no glob matches and every
command succeeds. -/
def wOk : World :=
  { fileExists := fun _ => true,
    glob := fun _ => [],
    runResult := fun _ => { exitCode := 0, stdout := "done", stderr := "" },
    now := { year := 2025, month := 1, day := 2, hour := 3, minute := 4, second := 5 } }

/-- Example world in which the build command fails and everything else
succeeds. -/
def wBuildFail : World :=
  { fileExists := fun _ => true,
    glob := fun _ => [],
    runResult := fun cmd =>
      if cmd.take 3 == ["flutter", "build", "apk"] then
        { exitCode := 1, stdout := "out", stderr := "err" }
      else { exitCode := 0, stdout := "", stderr := "" },
    now := { year := 2025, month := 1, day := 2, hour := 3, minute := 4, second := 5 } }

/-- Example world in which the Tailscale transfer fails and everything
else succeeds. -/
def wTsFail : World :=
  { fileExists := fun _ => true,
    glob := fun _ => [],
    runResult := fun cmd =>
      if cmd.take 1 == ["tailscale"] then
        { exitCode := 1, stdout := "out", stderr := "err" }
      else { exitCode := 0, stdout := "", stderr := "" },
    now := { year := 2025, month := 1, day := 2, hour := 3, minute := 4, second := 5 } }

/-- Example world in which `pubspec.yaml` is missing. -/
def wNoPub : World :=
  { fileExists := fun _ => false,
    glob := fun _ => [],
    runResult := fun _ => { exitCode := 0, stdout := "", stderr := "" },
    now := { year := 2025, month := 1, day := 2, hour := 3, minute := 4, second := 5 } }

/-- Example world in which only `pubspec.yaml` exists, no glob matches
and every command succeeds, so discovery finds nothing. -/
def wNoApk : World :=
  { fileExists := fun s => s == "pubspec.yaml",
    glob := fun _ => [],
    runResult := fun _ => { exitCode := 0, stdout := "", stderr := "" },
    now := { year := 2025, month := 1, day := 2, hour := 3, minute := 4, second := 5 } }

/-- Example artifact path: the exact expected release output. -/
def apkPathEx : String := "build/app/outputs/flutter-apk/app-release.apk"

/-- Example clock reading. -/
def t1Ex : DateTime :=
  { year := 2025, month := 1, day := 2, hour := 3, minute := 4, second := 5 }

/-- Example clock reading one second after `t1Ex`. -/
def t2Ex : DateTime :=
  { year := 2025, month := 1, day := 2, hour := 3, minute := 4, second := 6 }

/-! ### Helper lemmas about `rfindPos` and path components -/

theorem rfindPos_append (l1 l2 : List Char) (c : Char) :
    rfindPos (l1 ++ l2) c =
      match rfindPos l2 c with
      | some i => some (l1.length + i)
      | none => rfindPos l1 c := by
  induction l1 with
  | nil => cases h : rfindPos l2 c <;> simp [rfindPos, h]
  | cons a as ih =>
    cases h2 : rfindPos l2 c <;>
      cases h3 : rfindPos as c <;>
        simp [rfindPos, List.cons_append, ih, h2, h3] <;> omega

theorem rfindPos_none_iff {l : List Char} {c : Char} :
    rfindPos l c = none ↔ c ∉ l := by
  induction l with
  | nil => simp [rfindPos]
  | cons a as ih =>
    simp only [rfindPos, List.mem_cons]
    cases h3 : rfindPos as c with
    | some j =>
      have hmem : c ∈ as := by
        by_contra hc
        simp [ih.mpr hc] at h3
      simp [hmem]
    | none =>
      have has : c ∉ as := ih.mp h3
      by_cases hac : a = c
      · simp [hac]
      · simp [hac, has, Ne.symm hac]

theorem rfindPos_some_lt {l : List Char} {c : Char} {i : Nat}
    (h : rfindPos l c = some i) : i < l.length := by
  induction l generalizing i with
  | nil => simp [rfindPos] at h
  | cons a as ih =>
    simp only [rfindPos] at h
    cases h3 : rfindPos as c with
    | some j =>
      rw [h3] at h
      simp only [Option.some.injEq] at h
      have := ih h3
      simp [← h]
      omega
    | none =>
      rw [h3] at h
      by_cases hac : a = c
      · simp [hac] at h
        simp [← h]
      · simp [hac] at h

theorem rfindPos_some_drop {l : List Char} {c : Char} {i : Nat}
    (h : rfindPos l c = some i) : c ∉ l.drop (i + 1) := by
  induction l generalizing i with
  | nil => simp [rfindPos] at h
  | cons a as ih =>
    simp only [rfindPos] at h
    cases h3 : rfindPos as c with
    | some j =>
      rw [h3] at h
      simp only [Option.some.injEq] at h
      subst h
      simpa using ih h3
    | none =>
      rw [h3] at h
      by_cases hac : a = c
      · simp [hac] at h
        subst h
        simpa using rfindPos_none_iff.mp h3
      · simp [hac] at h

theorem string_mk_data (s : String) : String.mk s.data = s := rfl

theorem slash_data : "/".data = ['/'] := rfl

theorem slash_not_in_pathName (p : String) : '/' ∉ (pathName p).data := by
  unfold pathName
  cases h : rfindPos p.data '/' with
  | none => exact rfindPos_none_iff.mp h
  | some i => exact rfindPos_some_drop h

theorem pathJoin_dot (nm : String) : pathJoin "." nm = nm := by
  rw [pathJoin, if_pos rfl]

theorem pathJoin_root (nm : String) : pathJoin "/" nm = "/" ++ nm := by
  rw [pathJoin, if_neg (by decide), if_pos rfl]

theorem pathJoin_other (dir nm : String) (h1 : dir ≠ ".") (h2 : dir ≠ "/") :
    pathJoin dir nm = dir ++ "/" ++ nm := by
  rw [pathJoin, if_neg h1, if_neg h2]

theorem data_root_append (nm : String) : ("/" ++ nm).data = ['/'] ++ nm.data := by
  rw [String.data_append, slash_data]

theorem data_other_append (dir nm : String) :
    (dir ++ "/" ++ nm).data = (dir.data ++ ['/']) ++ nm.data := by
  rw [String.data_append, String.data_append, slash_data]

theorem pathName_pathJoin (dir nm : String) (h : '/' ∉ nm.data) :
    pathName (pathJoin dir nm) = nm := by
  by_cases h1 : dir = "."
  · subst h1
    rw [pathJoin_dot]
    unfold pathName
    rw [rfindPos_none_iff.mpr h]
  · by_cases h2 : dir = "/"
    · subst h2
      rw [pathJoin_root]
      unfold pathName
      rw [data_root_append, rfindPos_append, rfindPos_none_iff.mpr h]
      simp [rfindPos, string_mk_data]
    · rw [pathJoin_other dir nm h1 h2]
      unfold pathName
      rw [data_other_append, rfindPos_append, rfindPos_none_iff.mpr h,
          rfindPos_append]
      simp only [rfindPos, reduceIte]
      rw [show (List.length dir.data) + 0 + 1 = (dir.data ++ ['/']).length by simp]
      rw [List.drop_left]

theorem pathParentStr_pathJoin (dir nm : String) (h : '/' ∉ nm.data)
    (hne : dir.data ≠ []) :
    pathParentStr (pathJoin dir nm) = dir := by
  by_cases h1 : dir = "."
  · subst h1
    rw [pathJoin_dot]
    unfold pathParentStr
    rw [rfindPos_none_iff.mpr h]
  · by_cases h2 : dir = "/"
    · subst h2
      rw [pathJoin_root]
      unfold pathParentStr
      rw [data_root_append, rfindPos_append, rfindPos_none_iff.mpr h]
      simp [rfindPos]
    · rw [pathJoin_other dir nm h1 h2]
      unfold pathParentStr
      rw [data_other_append, rfindPos_append, rfindPos_none_iff.mpr h,
          rfindPos_append]
      simp only [rfindPos, reduceIte]
      have hd0 : dir.data.length ≠ 0 := fun hc =>
        hne (List.eq_nil_of_length_eq_zero hc)
      rw [if_neg (by omega)]
      rw [show (List.length dir.data) + 0 = (List.length dir.data) by omega]
      rw [List.append_assoc, List.take_left]

theorem pathParentStr_data_ne_nil (p : String) : (pathParentStr p).data ≠ [] := by
  unfold pathParentStr
  cases h : rfindPos p.data '/' with
  | none => simp
  | some i =>
    by_cases hi : i = 0
    · simp [hi]
    · have hlt : i < p.data.length := rfindPos_some_lt h
      simp only [hi, reduceIte]
      intro hc
      have hlen : (p.data.take i).length = 0 := by rw [hc]; rfl
      rw [List.length_take] at hlen
      omega

/-! ### Timestamp lemmas -/

theorem digitChar_bounded_inj :
    ∀ x, x < 10 → ∀ y, y < 10 → Nat.digitChar x = Nat.digitChar y → x = y := by
  decide

theorem digitChar_mod_inj {a b : Nat}
    (h : Nat.digitChar (a % 10) = Nat.digitChar (b % 10)) : a % 10 = b % 10 :=
  digitChar_bounded_inj (a % 10) (Nat.mod_lt _ (by norm_num)) (b % 10)
    (Nat.mod_lt _ (by norm_num)) h

theorem timestamp_data (t : DateTime) :
    (strftimeTimestamp t).data =
      [Nat.digitChar (t.year / 1000 % 10), Nat.digitChar (t.year / 100 % 10),
       Nat.digitChar (t.year / 10 % 10), Nat.digitChar (t.year % 10),
       Nat.digitChar (t.month / 10 % 10), Nat.digitChar (t.month % 10),
       Nat.digitChar (t.day / 10 % 10), Nat.digitChar (t.day % 10), '_',
       Nat.digitChar (t.hour / 10 % 10), Nat.digitChar (t.hour % 10),
       Nat.digitChar (t.minute / 10 % 10), Nat.digitChar (t.minute % 10),
       Nat.digitChar (t.second / 10 % 10), Nat.digitChar (t.second % 10)] := by
  simp [strftimeTimestamp, pad4, pad2]

theorem timestamp_length (t : DateTime) : (strftimeTimestamp t).data.length = 15 := by
  rw [timestamp_data]
  rfl

theorem timestamp_chars {c : Char} {t : DateTime}
    (h : c ∈ (strftimeTimestamp t).data) :
    c = '_' ∨ ∃ k, k < 10 ∧ c = Nat.digitChar k := by
  rw [timestamp_data] at h
  simp only [List.mem_cons, List.not_mem_nil, or_false] at h
  rcases h with h | h | h | h | h | h | h | h | h | h | h | h | h | h | h
  all_goals first
    | exact Or.inl h
    | exact Or.inr ⟨_, Nat.mod_lt _ (by norm_num), h⟩

theorem slash_not_in_timestamp (t : DateTime) :
    '/' ∉ (strftimeTimestamp t).data := by
  intro h
  rcases timestamp_chars h with h1 | ⟨k, hk, h2⟩
  · exact absurd h1 (by decide)
  · revert h2
    revert hk
    revert k
    decide

theorem strftimeTimestamp_inj {t1 t2 : DateTime} (h1 : t1.valid) (h2 : t2.valid)
    (h : strftimeTimestamp t1 = strftimeTimestamp t2) : t1 = t2 := by
  have hd : (strftimeTimestamp t1).data = (strftimeTimestamp t2).data := by
    rw [h]
  rw [timestamp_data, timestamp_data] at hd
  simp only [List.cons.injEq] at hd
  obtain ⟨y1, mo1, d1, ho1, mi1, s1⟩ := t1
  obtain ⟨y2, mo2, d2, ho2, mi2, s2⟩ := t2
  unfold DateTime.valid at h1 h2
  dsimp only at hd h1 h2
  obtain ⟨hy3, hy2, hy1, hy0, hmo1, hmo0, hd1, hd0, -, hh1, hh0, hmi1, hmi0,
    hs1, hs0, -⟩ := hd
  obtain ⟨hY1, -, hM1, -, hD1, hH1, hMi1, hS1⟩ := h1
  obtain ⟨hY2, -, hM2, -, hD2, hH2, hMi2, hS2⟩ := h2
  simp only [DateTime.mk.injEq]
  refine ⟨?_, ?_, ?_, ?_, ?_, ?_⟩
  · have e3 := digitChar_mod_inj hy3
    have e2 := digitChar_mod_inj hy2
    have e1 := digitChar_mod_inj hy1
    have e0 := digitChar_mod_inj hy0
    omega
  · have e1 := digitChar_mod_inj hmo1
    have e0 := digitChar_mod_inj hmo0
    omega
  · have e1 := digitChar_mod_inj hd1
    have e0 := digitChar_mod_inj hd0
    omega
  · have e1 := digitChar_mod_inj hh1
    have e0 := digitChar_mod_inj hh0
    omega
  · have e1 := digitChar_mod_inj hmi1
    have e0 := digitChar_mod_inj hmi0
    omega
  · have e1 := digitChar_mod_inj hs1
    have e0 := digitChar_mod_inj hs0
    omega

/-! ### Decomposition of the versioned file name -/

theorem underscore_data : "_".data = ['_'] := rfl

theorem apk_data : ".apk".data = ['.', 'a', 'p', 'k'] := rfl

theorem rfindPos_cons_last (l1 l2 : List Char) (c : Char) (h : c ∉ l2) :
    rfindPos (l1 ++ c :: l2) c = some l1.length := by
  rw [rfindPos_append]
  have hc : rfindPos (c :: l2) c = some 0 := by
    simp [rfindPos, rfindPos_none_iff.mpr h]
  rw [hc]
  simp

theorem new_filename_data (stem ts : String) :
    (stem ++ "_" ++ ts ++ ".apk").data =
      ((stem.data ++ ['_']) ++ ts.data) ++ '.' :: ['a', 'p', 'k'] := by
  rw [String.data_append, String.data_append, String.data_append,
      underscore_data, apk_data]

theorem nameSuffixSplit_concat (stem ts : String) (hts : ts.data.length = 15) :
    nameSuffixSplit (stem ++ "_" ++ ts ++ ".apk") = (stem ++ "_" ++ ts, ".apk") := by
  have hd := new_filename_data stem ts
  have hfind : rfindPos (stem ++ "_" ++ ts ++ ".apk").data '.' =
      some ((stem.data ++ ['_']) ++ ts.data).length := by
    rw [hd]
    exact rfindPos_cons_last _ _ _ (by decide)
  have hlen1 : ((stem.data ++ ['_']) ++ ts.data).length = stem.data.length + 16 := by
    simp [hts]
  have hlen : (stem ++ "_" ++ ts ++ ".apk").data.length =
      ((stem.data ++ ['_']) ++ ts.data).length + 4 := by
    rw [hd]
    simp only [List.length_append, List.length_cons, List.length_nil]
  unfold nameSuffixSplit
  rw [hfind]
  dsimp only
  rw [if_pos (by constructor <;> omega)]
  simp only [Prod.mk.injEq]
  constructor
  · rw [hd, List.take_left]
    have hstem : (stem ++ "_" ++ ts).data = (stem.data ++ ['_']) ++ ts.data := by
      rw [String.data_append, String.data_append, underscore_data]
    rw [← hstem, string_mk_data]
  · rw [hd, List.drop_left]

theorem nameSuffixSplit_fst_subset (name : String) :
    ∀ c, c ∈ (nameSuffixSplit name).1.data → c ∈ name.data := by
  unfold nameSuffixSplit
  cases h : rfindPos name.data '.' with
  | none => simp
  | some i =>
    by_cases hc : 0 < i ∧ i < name.data.length - 1
    · dsimp only
      rw [if_pos hc]
      intro c hm
      exact List.take_subset _ _ hm
    · dsimp only
      rw [if_neg hc]
      simp

theorem slash_not_in_new_filename (p ts : String)
    (hts : ∀ c, c ∈ ts.data → c ≠ '/') :
    '/' ∉ ((nameSuffixSplit (pathName p)).1 ++ "_" ++ ts ++ ".apk").data := by
  rw [new_filename_data]
  intro hmem
  rcases List.mem_append.mp hmem with hmem | hmem
  · rcases List.mem_append.mp hmem with hmem | hmem
    · rcases List.mem_append.mp hmem with hmem | hmem
      · exact slash_not_in_pathName p (nameSuffixSplit_fst_subset _ _ hmem)
      · simp at hmem
    · exact hts _ hmem rfl
  · simp at hmem

theorem timestamp_char_ne_slash (t : DateTime) :
    ∀ c, c ∈ (strftimeTimestamp t).data → c ≠ '/' := by
  intro c hc
  intro he
  subst he
  exact slash_not_in_timestamp t hc

theorem rename_unfold (p bt : String) (t : DateTime)
    (hsuf : (nameSuffixSplit (pathName p)).2 = ".apk") :
    rename_apk_with_version p bt t =
      pathJoin (pathParentStr p)
        ((nameSuffixSplit (pathName p)).1 ++ "_" ++ strftimeTimestamp t ++ ".apk") := by
  show pathJoin (pathParentStr p)
      ((nameSuffixSplit (pathName p)).1 ++ "_" ++ strftimeTimestamp t ++
        (nameSuffixSplit (pathName p)).2) = _
  rw [hsuf]

/-- Claim C3: the versioning stage inserts a `%Y%m%d_%H%M%S` timestamp
between the base name and the extension, preserves the parent directory
and the `.apk` extension, and distinct clock readings (runs more than one
second apart) produce distinct file names. -/
theorem rename_apk_with_version_correct (p bt1 bt2 : String) (t1 t2 : DateTime)
    (hsuf : (nameSuffixSplit (pathName p)).2 = ".apk")
    (h1 : t1.valid) (h2 : t2.valid) (hne : t1 ≠ t2) :
    rename_apk_with_version p bt1 t1 =
      pathJoin (pathParentStr p)
        ((nameSuffixSplit (pathName p)).1 ++ "_" ++ strftimeTimestamp t1 ++ ".apk") ∧
    pathParentStr (rename_apk_with_version p bt1 t1) = pathParentStr p ∧
    (nameSuffixSplit (pathName (rename_apk_with_version p bt1 t1))).2 = ".apk" ∧
    pathName (rename_apk_with_version p bt1 t1) ≠
      pathName (rename_apk_with_version p bt2 t2) := by
  have hnm1 := slash_not_in_new_filename p (strftimeTimestamp t1)
    (timestamp_char_ne_slash t1)
  have hnm2 := slash_not_in_new_filename p (strftimeTimestamp t2)
    (timestamp_char_ne_slash t2)
  have hu1 := rename_unfold p bt1 t1 hsuf
  have hu2 := rename_unfold p bt2 t2 hsuf
  have hname1 : pathName (rename_apk_with_version p bt1 t1) =
      (nameSuffixSplit (pathName p)).1 ++ "_" ++ strftimeTimestamp t1 ++ ".apk" := by
    rw [hu1]
    exact pathName_pathJoin _ _ hnm1
  have hname2 : pathName (rename_apk_with_version p bt2 t2) =
      (nameSuffixSplit (pathName p)).1 ++ "_" ++ strftimeTimestamp t2 ++ ".apk" := by
    rw [hu2]
    exact pathName_pathJoin _ _ hnm2
  refine ⟨hu1, ?_, ?_, ?_⟩
  · rw [hu1]
    exact pathParentStr_pathJoin _ _ hnm1 (pathParentStr_data_ne_nil p)
  · rw [hname1, nameSuffixSplit_concat _ _ (timestamp_length t1)]
  · rw [hname1, hname2]
    intro he
    apply hne
    apply strftimeTimestamp_inj h1 h2
    have hdata := congrArg String.data he
    rw [new_filename_data, new_filename_data] at hdata
    have hl : (((nameSuffixSplit (pathName p)).1.data ++ ['_']) ++
        (strftimeTimestamp t1).data).length =
        (((nameSuffixSplit (pathName p)).1.data ++ ['_']) ++
        (strftimeTimestamp t2).data).length := by
      simp only [List.length_append, timestamp_length]
    have hfront := (List.append_inj hdata hl).1
    have hts : (strftimeTimestamp t1).data = (strftimeTimestamp t2).data :=
      List.append_cancel_left hfront
    have h3 := congrArg String.mk hts
    rwa [string_mk_data, string_mk_data] at h3

/-! ### Event predicate computations -/

theorem buildCmd_take3 (bt : String) :
    (buildCmd bt).take 3 = ["flutter", "build", "apk"] := by
  unfold buildCmd
  split_ifs <;> rfl

theorem isBuildInvocation_buildCmd (bt : String) (c : Nat) :
    isBuildInvocation (Event.runCmd (buildCmd bt) c) = true := by
  simp [isBuildInvocation, buildCmd_take3]

theorem isBuildInvocation_clean (c : Nat) :
    isBuildInvocation (Event.runCmd cleanCmd c) = false := rfl

theorem isBuildInvocation_pubGet (c : Nat) :
    isBuildInvocation (Event.runCmd pubGetCmd c) = false := rfl

theorem isBuildInvocation_ts (v d : String) (c : Nat) :
    isBuildInvocation (Event.runCmd (tsCmd v d) c) = false := rfl

theorem isBuildInvocation_discover (bt : String) :
    isBuildInvocation (Event.discover bt) = false := rfl

theorem isBuildInvocation_move (a b : String) :
    isBuildInvocation (Event.moveFile a b) = false := rfl

theorem isTransfer_ts (v d : String) (c : Nat) :
    isTransfer (Event.runCmd (tsCmd v d) c) = true := rfl

theorem isTransfer_clean (c : Nat) :
    isTransfer (Event.runCmd cleanCmd c) = false := rfl

theorem isTransfer_pubGet (c : Nat) :
    isTransfer (Event.runCmd pubGetCmd c) = false := rfl

theorem isTransfer_buildCmd (bt : String) (c : Nat) :
    isTransfer (Event.runCmd (buildCmd bt) c) = false := by
  unfold buildCmd
  split_ifs <;> rfl

/-! ### Claim theorems -/

/-- Claim C2: for every invoked external command, `run_command` prints the
two header lines and then: on zero exit status echoes the captured stdout
(when non-empty) and returns the result to the caller; on non-zero exit
status prints the diagnostic carrying the description, the captured stdout
and the captured stderr (each when non-empty) and terminates the process
with exit code 1.  Termination versus return is exactly the exit-status
test, which is the script's sole error-propagation mechanism. -/
theorem run_command_behavior (w : World) (cmd : List String)
    (description : String) :
    run_command w cmd description =
      (if (w.runResult cmd).exitCode = 0 then
        ([OutLine.header description,
          OutLine.running (String.intercalate " " cmd)] ++
         (if (w.runResult cmd).stdout = "" then []
          else [OutLine.stdoutLine (w.runResult cmd).stdout]),
         Except.ok (w.runResult cmd))
      else
        ([OutLine.header description,
          OutLine.running (String.intercalate " " cmd)] ++
         [OutLine.errorDiag description (w.runResult cmd).exitCode] ++
         (if (w.runResult cmd).stdout = "" then []
          else [OutLine.errStdout (w.runResult cmd).stdout]) ++
         (if (w.runResult cmd).stderr = "" then []
          else [OutLine.errStderr (w.runResult cmd).stderr]),
         Except.error 1)) ∧
    ((run_command w cmd description).2 = Except.error 1 ↔
      (w.runResult cmd).exitCode ≠ 0) := by
  constructor
  · rfl
  · unfold run_command
    by_cases h : (w.runResult cmd).exitCode = 0 <;> simp [h]

/-- Claim C1: for both build variants, `find_apk_file` returns the first
existing path in the fixed ordered candidate list (exact expected path,
then the two variant-tagged glob patterns in order, a glob's first match
being taken), returns `none` when no candidate exists, and in that case
the caller terminates the run with exit code 1 right after discovery. -/
theorem find_apk_file_first_match (w : World) (bt : String)
    (h : bt = "debug" ∨ bt = "release") :
    find_apk_file w bt = firstExistingCandidate w (candidates bt) ∧
    (find_apk_file w bt = none →
      w.fileExists "pubspec.yaml" = true →
      (w.runResult cleanCmd).exitCode = 0 →
      (w.runResult pubGetCmd).exitCode = 0 →
      (w.runResult (buildCmd bt)).exitCode = 0 →
      mainRun w (bt == "debug") (bt == "release") =
        ([Event.runCmd cleanCmd 0, Event.runCmd pubGetCmd 0,
          Event.runCmd (buildCmd bt) 0, Event.discover bt],
         Outcome.exited 1)) := by
  rcases h with h | h <;> subst h <;> refine ⟨?_, ?_⟩
  · cases hf : w.fileExists "build/app/outputs/flutter-apk/app-debug.apk" <;>
      cases hg1 : w.glob "build/app/outputs/flutter-apk/*debug*.apk" <;>
        cases hg2 : w.glob "build/app/outputs/apk/debug/*.apk" <;>
          simp [find_apk_file, candidates, firstExistingCandidate, candResult,
                globFirst, hf, hg1, hg2]
  · intro hfind hp hc hg hb
    simp [mainRun, runEvent, hp, hc, hg, hb, hfind]
  · cases hf : w.fileExists "build/app/outputs/flutter-apk/app-release.apk" <;>
      cases hg1 : w.glob "build/app/outputs/flutter-apk/*release*.apk" <;>
        cases hg2 : w.glob "build/app/outputs/apk/release/*.apk" <;>
          simp [find_apk_file, candidates, firstExistingCandidate, candResult,
                globFirst, hf, hg1, hg2]
  · intro hfind hp hc hg hb
    simp [mainRun, runEvent, hp, hc, hg, hb, hfind]

/-- Claim C4: with exactly one variant flag set, once the precondition
holds and the clean and dependency-fetch commands succeed, the pipeline's
first three subprocess invocations are `flutter clean`, `flutter pub get`
(both unconditionally, regardless of variant) and then the build command
whose flags match the selected variant with the fixed `android-arm64`
target filter; and over the whole run exactly one `flutter build`
invocation occurs. -/
theorem build_stage_invocations (w : World) (df rf : Bool) (hx : df ≠ rf)
    (hp : w.fileExists "pubspec.yaml" = true)
    (hc : (w.runResult cleanCmd).exitCode = 0)
    (hg : (w.runResult pubGetCmd).exitCode = 0) :
    (mainRun w df rf).1.take 3 =
      [Event.runCmd cleanCmd 0, Event.runCmd pubGetCmd 0,
       Event.runCmd (buildCmd (if df then "debug" else "release"))
         (w.runResult (buildCmd (if df then "debug" else "release"))).exitCode] ∧
    (mainRun w df rf).1.countP isBuildInvocation = 1 := by
  have hpar : ((df && rf) || (!df && !rf)) = false := by
    cases df <;> cases rf <;> simp_all
  by_cases hb : (w.runResult (buildCmd (if df then "debug" else "release"))).exitCode = 0
  · cases hfind : find_apk_file w (if df then "debug" else "release") with
    | none =>
      constructor <;>
        simp [mainRun, runEvent, hpar, hp, hc, hg, hb, hfind, List.countP_cons,
              isBuildInvocation_buildCmd, isBuildInvocation_clean,
              isBuildInvocation_pubGet, isBuildInvocation_discover]
    | some apk =>
      by_cases hts : (w.runResult
          (tsCmd (rename_apk_with_version apk (if df then "debug" else "release") w.now)
            TARGET_DEVICE_NAME)).exitCode = 0 <;>
        constructor <;>
          simp [mainRun, runEvent, hpar, hp, hc, hg, hb, hfind, hts, List.countP_cons,
                isBuildInvocation_buildCmd, isBuildInvocation_clean,
                isBuildInvocation_pubGet, isBuildInvocation_discover,
                isBuildInvocation_ts, isBuildInvocation_move]
  · constructor <;>
      simp [mainRun, runEvent, hpar, hp, hc, hg, hb, List.countP_cons,
            isBuildInvocation_buildCmd, isBuildInvocation_clean,
            isBuildInvocation_pubGet]

/-- Claim C6: when the build command exits non-zero (the run having
reached it), the program stops at once with exit code 1: the trace is
exactly the three build-stage commands, and no discovery, move or
transfer event ever occurs after the build failure. -/
theorem build_failure_halts (w : World) (df rf : Bool) (hx : df ≠ rf)
    (hp : w.fileExists "pubspec.yaml" = true)
    (hc : (w.runResult cleanCmd).exitCode = 0)
    (hg : (w.runResult pubGetCmd).exitCode = 0)
    (hb : (w.runResult (buildCmd (if df then "debug" else "release"))).exitCode ≠ 0) :
    mainRun w df rf =
      ([Event.runCmd cleanCmd 0, Event.runCmd pubGetCmd 0,
        Event.runCmd (buildCmd (if df then "debug" else "release"))
          (w.runResult (buildCmd (if df then "debug" else "release"))).exitCode],
       Outcome.exited 1) ∧
    (mainRun w df rf).1.any (fun e => isDiscover e || isTransfer e || isMove e) =
      false := by
  have hpar : ((df && rf) || (!df && !rf)) = false := by
    cases df <;> cases rf <;> simp_all
  constructor
  · simp [mainRun, runEvent, hpar, hp, hc, hg, hb]
  · simp [mainRun, runEvent, hpar, hp, hc, hg, hb, isDiscover, isMove,
          isTransfer_clean, isTransfer_pubGet, isTransfer_buildCmd]

/-- Claim C5: when the pipeline reaches the transfer stage and the
Tailscale command exits non-zero, the program terminates with exit code 1
and the versioned artifact stays in place: the single filesystem move of
the whole run is the rename that produced the versioned path, and nothing
after it moves or deletes that file. -/
theorem transfer_failure_preserves_artifact (w : World) (df rf : Bool)
    (apk : String) (hx : df ≠ rf)
    (hp : w.fileExists "pubspec.yaml" = true)
    (hc : (w.runResult cleanCmd).exitCode = 0)
    (hg : (w.runResult pubGetCmd).exitCode = 0)
    (hb : (w.runResult (buildCmd (if df then "debug" else "release"))).exitCode = 0)
    (hfind : find_apk_file w (if df then "debug" else "release") = some apk)
    (hts : (w.runResult
        (tsCmd (rename_apk_with_version apk (if df then "debug" else "release") w.now)
          TARGET_DEVICE_NAME)).exitCode ≠ 0) :
    mainRun w df rf =
      ([Event.runCmd cleanCmd 0, Event.runCmd pubGetCmd 0,
        Event.runCmd (buildCmd (if df then "debug" else "release")) 0,
        Event.discover (if df then "debug" else "release"),
        Event.moveFile apk
          (rename_apk_with_version apk (if df then "debug" else "release") w.now),
        Event.runCmd
          (tsCmd (rename_apk_with_version apk (if df then "debug" else "release") w.now)
            TARGET_DEVICE_NAME)
          (w.runResult
            (tsCmd (rename_apk_with_version apk (if df then "debug" else "release") w.now)
              TARGET_DEVICE_NAME)).exitCode],
       Outcome.exited 1) ∧
    (mainRun w df rf).1.filter isMove =
      [Event.moveFile apk
        (rename_apk_with_version apk (if df then "debug" else "release") w.now)] := by
  have hpar : ((df && rf) || (!df && !rf)) = false := by
    cases df <;> cases rf <;> simp_all
  constructor
  · simp [mainRun, runEvent, hpar, hp, hc, hg, hb, hfind, hts]
  · simp [mainRun, runEvent, hpar, hp, hc, hg, hb, hfind, hts, isMove,
          List.filter]

/-- Claim C7: supplying both variant flags or neither is a usage error:
the process exits with the argparse usage code 2 before any pipeline
stage, with an empty side-effect trace (no subprocess invoked). -/
theorem usage_error_no_side_effects (w : World) (df rf : Bool) (hx : df = rf) :
    mainRun w df rf = ([], Outcome.exited 2) := by
  have hpar : ((df && rf) || (!df && !rf)) = true := by
    cases df <;> cases rf <;> simp_all
  simp [mainRun, hpar]

/-- Claim C8: the precondition check looks for `pubspec.yaml` in the
working directory: when absent the process exits with code 1 before any
external command (empty trace); when present the check is silent and the
first recorded side effect is the `flutter clean` invocation. -/
theorem precondition_check (w : World) (df rf : Bool) (hx : df ≠ rf) :
    (w.fileExists "pubspec.yaml" = false →
      mainRun w df rf = ([], Outcome.exited 1)) ∧
    (w.fileExists "pubspec.yaml" = true →
      (mainRun w df rf).1.take 1 =
        [Event.runCmd cleanCmd (w.runResult cleanCmd).exitCode]) := by
  have hpar : ((df && rf) || (!df && !rf)) = false := by
    cases df <;> cases rf <;> simp_all
  constructor
  · intro hp
    simp [mainRun, hpar, hp]
  · intro hp
    by_cases hc : (w.runResult cleanCmd).exitCode = 0
    · by_cases hg : (w.runResult pubGetCmd).exitCode = 0
      · by_cases hb : (w.runResult (buildCmd (if df then "debug" else "release"))).exitCode = 0
        · cases hfind : find_apk_file w (if df then "debug" else "release") with
          | none => simp [mainRun, runEvent, hpar, hp, hc, hg, hb, hfind]
          | some apk =>
            by_cases hts : (w.runResult
                (tsCmd (rename_apk_with_version apk (if df then "debug" else "release") w.now)
                  TARGET_DEVICE_NAME)).exitCode = 0 <;>
              simp [mainRun, runEvent, hpar, hp, hc, hg, hb, hfind, hts]
        · simp [mainRun, runEvent, hpar, hp, hc, hg, hb]
      · simp [mainRun, runEvent, hpar, hp, hc, hg]
    · simp [mainRun, runEvent, hpar, hp, hc]

/-- Claim C9: the transfer stage goes through `run_command` with the
`tailscale file cp` argument vector whose source is the versioned
artifact path and whose destination is exactly the device identifier
followed by a colon; it is the final event of the run and a non-zero exit
status of it makes the whole program exit 1 (otherwise the run
succeeds). -/
theorem transfer_invocation_shape (w : World) (df rf : Bool) (apk : String)
    (hx : df ≠ rf)
    (hp : w.fileExists "pubspec.yaml" = true)
    (hc : (w.runResult cleanCmd).exitCode = 0)
    (hg : (w.runResult pubGetCmd).exitCode = 0)
    (hb : (w.runResult (buildCmd (if df then "debug" else "release"))).exitCode = 0)
    (hfind : find_apk_file w (if df then "debug" else "release") = some apk) :
    send_apk_via_tailscale w
        (rename_apk_with_version apk (if df then "debug" else "release") w.now)
        TARGET_DEVICE_NAME =
      run_command w
        ["tailscale", "file", "cp",
         rename_apk_with_version apk (if df then "debug" else "release") w.now,
         "asus:"]
        ("Sending " ++
          pathName (rename_apk_with_version apk (if df then "debug" else "release") w.now) ++
          " to " ++ TARGET_DEVICE_NAME ++ " via Tailscale") ∧
    tsCmd (rename_apk_with_version apk (if df then "debug" else "release") w.now)
        TARGET_DEVICE_NAME =
      ["tailscale", "file", "cp",
       rename_apk_with_version apk (if df then "debug" else "release") w.now,
       "asus:"] ∧
    (mainRun w df rf).1.getLast? =
      some (Event.runCmd
        (tsCmd (rename_apk_with_version apk (if df then "debug" else "release") w.now)
          TARGET_DEVICE_NAME)
        (w.runResult
          (tsCmd (rename_apk_with_version apk (if df then "debug" else "release") w.now)
            TARGET_DEVICE_NAME)).exitCode) ∧
    (mainRun w df rf).2 =
      (if (w.runResult
          (tsCmd (rename_apk_with_version apk (if df then "debug" else "release") w.now)
            TARGET_DEVICE_NAME)).exitCode = 0 then
        Outcome.success
      else Outcome.exited 1) := by
  have hpar : ((df && rf) || (!df && !rf)) = false := by
    cases df <;> cases rf <;> simp_all
  refine ⟨rfl, rfl, ?_, ?_⟩ <;>
    by_cases hts : (w.runResult
        (tsCmd (rename_apk_with_version apk (if df then "debug" else "release") w.now)
          TARGET_DEVICE_NAME)).exitCode = 0 <;>
      simp [mainRun, runEvent, hpar, hp, hc, hg, hb, hfind, hts]

/-- Claim C10: the versioning stage ignores its `build_type` argument:
for the same path and clock reading, any two build-type values yield the
same new path (hence the same move). -/
theorem rename_ignores_build_type (p bt1 bt2 : String) (t : DateTime) :
    rename_apk_with_version p bt1 t = rename_apk_with_version p bt2 t := rfl

/-! ### Witnesses -/

/-- Witness for C1 at the world where only `pubspec.yaml` exists. -/
theorem find_apk_file_first_match_witness :
    ("release" = "debug" ∨ ("release" : String) = "release") ∧
    (find_apk_file wNoApk "release" = firstExistingCandidate wNoApk (candidates "release") ∧
     (find_apk_file wNoApk "release" = none →
      wNoApk.fileExists "pubspec.yaml" = true →
      (wNoApk.runResult cleanCmd).exitCode = 0 →
      (wNoApk.runResult pubGetCmd).exitCode = 0 →
      (wNoApk.runResult (buildCmd "release")).exitCode = 0 →
      mainRun wNoApk ("release" == "debug") ("release" == "release") =
        ([Event.runCmd cleanCmd 0, Event.runCmd pubGetCmd 0,
          Event.runCmd (buildCmd "release") 0, Event.discover "release"],
         Outcome.exited 1))) :=
  ⟨Or.inr rfl, find_apk_file_first_match wNoApk "release" (Or.inr rfl)⟩

/-- Witness for C3 at a concrete release artifact path and two clock
readings one second apart. -/
theorem rename_apk_with_version_correct_witness :
    (nameSuffixSplit (pathName apkPathEx)).2 = ".apk" ∧
    t1Ex.valid ∧ t2Ex.valid ∧ t1Ex ≠ t2Ex ∧
    (rename_apk_with_version apkPathEx "release" t1Ex =
      pathJoin (pathParentStr apkPathEx)
        ((nameSuffixSplit (pathName apkPathEx)).1 ++ "_" ++
          strftimeTimestamp t1Ex ++ ".apk") ∧
     pathParentStr (rename_apk_with_version apkPathEx "release" t1Ex) =
       pathParentStr apkPathEx ∧
     (nameSuffixSplit (pathName (rename_apk_with_version apkPathEx "release" t1Ex))).2 =
       ".apk" ∧
     pathName (rename_apk_with_version apkPathEx "release" t1Ex) ≠
       pathName (rename_apk_with_version apkPathEx "debug" t2Ex)) :=
  ⟨by decide, by decide, by decide, by decide,
   rename_apk_with_version_correct apkPathEx "release" "debug" t1Ex t2Ex
     (by decide) (by decide) (by decide) (by decide)⟩

/-- Witness for C4 at the all-success world with the debug flag. -/
theorem build_stage_invocations_witness :
    (true ≠ false) ∧ wOk.fileExists "pubspec.yaml" = true ∧
    (wOk.runResult cleanCmd).exitCode = 0 ∧
    (wOk.runResult pubGetCmd).exitCode = 0 ∧
    ((mainRun wOk true false).1.take 3 =
      [Event.runCmd cleanCmd 0, Event.runCmd pubGetCmd 0,
       Event.runCmd (buildCmd "debug") (wOk.runResult (buildCmd "debug")).exitCode] ∧
     (mainRun wOk true false).1.countP isBuildInvocation = 1) :=
  ⟨by decide, rfl, rfl, rfl,
   build_stage_invocations wOk true false (by decide) rfl rfl rfl⟩

/-- Witness for C6 at the world whose build command fails. -/
theorem build_failure_halts_witness :
    (true ≠ false) ∧ wBuildFail.fileExists "pubspec.yaml" = true ∧
    (wBuildFail.runResult cleanCmd).exitCode = 0 ∧
    (wBuildFail.runResult pubGetCmd).exitCode = 0 ∧
    (wBuildFail.runResult (buildCmd "debug")).exitCode ≠ 0 ∧
    (mainRun wBuildFail true false =
      ([Event.runCmd cleanCmd 0, Event.runCmd pubGetCmd 0,
        Event.runCmd (buildCmd "debug")
          (wBuildFail.runResult (buildCmd "debug")).exitCode],
       Outcome.exited 1) ∧
     (mainRun wBuildFail true false).1.any
       (fun e => isDiscover e || isTransfer e || isMove e) = false) :=
  ⟨by decide, rfl, by decide, by decide, by decide,
   build_failure_halts wBuildFail true false (by decide) rfl (by decide)
     (by decide) (by decide)⟩

/-- Witness for C5 at the world whose Tailscale transfer fails, with the
release flag and the exact expected release artifact. -/
theorem transfer_failure_preserves_artifact_witness :
    (false ≠ true) ∧ wTsFail.fileExists "pubspec.yaml" = true ∧
    (wTsFail.runResult cleanCmd).exitCode = 0 ∧
    (wTsFail.runResult pubGetCmd).exitCode = 0 ∧
    (wTsFail.runResult (buildCmd "release")).exitCode = 0 ∧
    find_apk_file wTsFail "release" = some apkPathEx ∧
    (wTsFail.runResult
        (tsCmd (rename_apk_with_version apkPathEx "release" wTsFail.now)
          TARGET_DEVICE_NAME)).exitCode ≠ 0 ∧
    (mainRun wTsFail false true =
      ([Event.runCmd cleanCmd 0, Event.runCmd pubGetCmd 0,
        Event.runCmd (buildCmd "release") 0, Event.discover "release",
        Event.moveFile apkPathEx
          (rename_apk_with_version apkPathEx "release" wTsFail.now),
        Event.runCmd
          (tsCmd (rename_apk_with_version apkPathEx "release" wTsFail.now)
            TARGET_DEVICE_NAME)
          (wTsFail.runResult
            (tsCmd (rename_apk_with_version apkPathEx "release" wTsFail.now)
              TARGET_DEVICE_NAME)).exitCode],
       Outcome.exited 1) ∧
     (mainRun wTsFail false true).1.filter isMove =
       [Event.moveFile apkPathEx
         (rename_apk_with_version apkPathEx "release" wTsFail.now)]) :=
  ⟨by decide, rfl, by decide, by decide, by decide, rfl, by decide,
   transfer_failure_preserves_artifact wTsFail false true apkPathEx
     (by decide) rfl (by decide) (by decide) (by decide) rfl (by decide)⟩

/-- Witness for C7 with both flags supplied. -/
theorem usage_error_no_side_effects_witness :
    (true : Bool) = true ∧ mainRun wOk true true = ([], Outcome.exited 2) :=
  ⟨rfl, usage_error_no_side_effects wOk true true rfl⟩

/-- Witness for C8 at the world with no `pubspec.yaml`. -/
theorem precondition_check_witness :
    (true ≠ false) ∧
    ((wNoPub.fileExists "pubspec.yaml" = false →
      mainRun wNoPub true false = ([], Outcome.exited 1)) ∧
     (wNoPub.fileExists "pubspec.yaml" = true →
      (mainRun wNoPub true false).1.take 1 =
        [Event.runCmd cleanCmd (wNoPub.runResult cleanCmd).exitCode])) :=
  ⟨by decide, precondition_check wNoPub true false (by decide)⟩

/-- Witness for C9 at the all-success world with the release flag. -/
theorem transfer_invocation_shape_witness :
    (false ≠ true) ∧ wOk.fileExists "pubspec.yaml" = true ∧
    (wOk.runResult cleanCmd).exitCode = 0 ∧
    (wOk.runResult pubGetCmd).exitCode = 0 ∧
    (wOk.runResult (buildCmd "release")).exitCode = 0 ∧
    find_apk_file wOk "release" = some apkPathEx ∧
    (send_apk_via_tailscale wOk
        (rename_apk_with_version apkPathEx "release" wOk.now) TARGET_DEVICE_NAME =
      run_command wOk
        ["tailscale", "file", "cp",
         rename_apk_with_version apkPathEx "release" wOk.now, "asus:"]
        ("Sending " ++ pathName (rename_apk_with_version apkPathEx "release" wOk.now) ++
          " to " ++ TARGET_DEVICE_NAME ++ " via Tailscale") ∧
     tsCmd (rename_apk_with_version apkPathEx "release" wOk.now) TARGET_DEVICE_NAME =
       ["tailscale", "file", "cp",
        rename_apk_with_version apkPathEx "release" wOk.now, "asus:"] ∧
     (mainRun wOk false true).1.getLast? =
       some (Event.runCmd
         (tsCmd (rename_apk_with_version apkPathEx "release" wOk.now)
           TARGET_DEVICE_NAME)
         (wOk.runResult
           (tsCmd (rename_apk_with_version apkPathEx "release" wOk.now)
             TARGET_DEVICE_NAME)).exitCode) ∧
     (mainRun wOk false true).2 =
       (if (wOk.runResult
           (tsCmd (rename_apk_with_version apkPathEx "release" wOk.now)
             TARGET_DEVICE_NAME)).exitCode = 0 then
         Outcome.success
       else Outcome.exited 1)) :=
  ⟨by decide, rfl, rfl, rfl, rfl, rfl,
   transfer_invocation_shape wOk false true apkPathEx
     (by decide) rfl rfl rfl rfl rfl⟩
